import Mathlib

/-!
Verification of the ModelX_SOTA evaluation app core.

Shallow embedding of:
  - the Gemini service wrapper (`parseBase64`, `generateTestImage`,
    `generateComparisonPair`);
  - the application state machine (`App`: phase state, session records,
    and the interaction handlers).

Strings are Lean `String`s (JS strings); the `data:` URL parsing is done on
`List Char` mirroring the JS regex `^data:([A-Za-z-+\/]+);base64,(.+)$`
deterministically (see the comment on `parseBase64Data`). Asynchronous
calls are embedded by passing the external service as an oracle function
and threading its results; thrown JS values are an explicit error type.
-/

/-- A thrown JS value: either an `Error` with a message (`new Error(msg)`),
or the `TypeError` raised by reading a property of `undefined`. -/
inductive JsError
  | err (msg : String)
  | typeError
deriving DecidableEq, Repr

/-- Character class `[A-Za-z-+\/]` of the mime-type capture group: ASCII
letters, hyphen, plus and slash. -/
def isMimeTypeChar (c : Char) : Bool :=
  (('A' ≤ c && c ≤ 'Z') || ('a' ≤ c && c ≤ 'z') || c == '-' || c == '+' || c == '/')

/-- JS line terminators, the characters not matched by `.` in a regex
without the `s` flag. -/
def isLineTerminator (c : Char) : Bool :=
  c == '\n' || c == '\r' || c == '\u2028' || c == '\u2029'

/-- The literal characters of `data:`. -/
def dataUrlHead : List Char := ['d', 'a', 't', 'a', ':']

/-- The literal characters of `;base64,`. -/
def base64Marker : List Char := [';', 'b', 'a', 's', 'e', '6', '4', ',']

/-- Matching of `^data:([A-Za-z-+\/]+);base64,(.+)$` on a character list.

The JS regex is deterministic on every input: group 1 is greedy and can
only give back characters of its class, but the literal `;` that must
follow is not in the class, so group 1 matches exactly the maximal run of
class characters after `data:` (and fails when that run is empty); `(.+)$`
without the `s` and `m` flags succeeds exactly when the remainder is
non-empty and free of line terminators. -/
def parseBase64Data (s : List Char) : Option (List Char × List Char) :=
  if s.take 5 = dataUrlHead then
    let rest := s.drop 5
    let m := rest.takeWhile isMimeTypeChar
    let rest2 := rest.drop m.length
    if m = [] then none
    else if rest2.take 8 = base64Marker then
      let p := rest2.drop 8
      if p = [] then none
      else if p.all (fun c => !isLineTerminator c) then some (m, p)
      else none
    else none
  else none

/-- `parseBase64` (part_000 lines 6-15): match the data-URL convention and
return `\x7b mimeType, data \x7d`, or throw `Error('Invalid input string')`. -/
def parseBase64 (base64String : String) : Except JsError (String × String) :=
  match parseBase64Data base64String.data with
  | some (m, p) => .ok (String.mk m, String.mk p)
  | none => .error (JsError.err "Invalid input string")

/-- An inline image payload: a media type plus base64 data. -/
structure InlineData where
  mimeType : String
  data : String
deriving DecidableEq, Repr

/-- A request content part: either text or inline image data. -/
inductive ReqPart
  | text (s : String)
  | inlineData (d : InlineData)
deriving DecidableEq, Repr

/-- A response content part; only its optional `inlineData` field is read. -/
structure RespPart where
  inlineData : Option InlineData
deriving DecidableEq, Repr

/-- A response candidate content, with an optional `parts` array. -/
structure RespContent where
  parts : Option (List RespPart)
deriving DecidableEq, Repr

/-- A response candidate, with an optional `content`. -/
structure Candidate where
  content : Option RespContent
deriving DecidableEq, Repr

/-- The service response: an optional array of candidates. -/
structure GenResponse where
  candidates : Option (List Candidate)
deriving DecidableEq, Repr

/-- The external generation service (`ai.models.generateContent`) as an
oracle: a request (its parts) resolves to a response or rejects with a
thrown value, which `generateTestImage` propagates as a transport failure. -/
def GenService : Type := List ReqPart → Except JsError GenResponse

/-- Output convention of `generateTestImage` (part_000 line 42):
the template literal `data:${mimeType};base64,${data}`. -/
def encodeDataUrl (mimeType data : String) : String :=
  "data:" ++ mimeType ++ ";base64," ++ data

/-- The `for` loop of part_000 lines 40-44: first part carrying inline
data, if any. -/
def findInlineData : List RespPart → Option InlineData
  | [] => none
  | pt :: ps =>
    match pt.inlineData with
    | some d => some d
    | none => findInlineData ps

/-- Image extraction (part_000 lines 39-47). JS truthiness is modelled
exactly: a missing (`undefined`) `candidates`, `content` or `parts` makes
the guard falsy and control falls through to
`throw new Error("No image data found in response")`; but a present empty
`candidates` array is truthy, and `response.candidates[0].content` then
reads `.content` on `undefined`, raising a `TypeError`. -/
def extractImage (response : GenResponse) : Except JsError String :=
  match response.candidates with
  | none => .error (JsError.err "No image data found in response")
  | some [] => .error JsError.typeError
  | some (c :: _) =>
    match c.content with
    | none => .error (JsError.err "No image data found in response")
    | some ct =>
      match ct.parts with
      | none => .error (JsError.err "No image data found in response")
      | some ps =>
        match findInlineData ps with
        | some d => .ok (encodeDataUrl d.mimeType d.data)
        | none => .error (JsError.err "No image data found in response")

/-- Request assembly (part_000 lines 19-29): a text part from the prompt,
preceded (`unshift`) by the parsed reference image when one is supplied;
a parse failure is thrown out of the `try` block. -/
def buildParts (prompt : String) (referenceImage : Option String) :
    Except JsError (List ReqPart) :=
  match referenceImage with
  | none => .ok [ReqPart.text prompt]
  | some r =>
    match parseBase64 r with
    | .ok (mt, d) => .ok [ReqPart.inlineData ⟨mt, d⟩, ReqPart.text prompt]
    | .error e => .error e

deriving instance DecidableEq for Except

/-- Result of one `generateTestImage` call: the settled promise plus the
`console.error` log entries emitted while it ran. -/
structure GenOutcome where
  result : Except JsError String
  log : List String
deriving DecidableEq, Repr

/-- `generateTestImage` (part_000 lines 17-52): build the request parts,
call the service, extract the first inline image as a data URL; any
failure is logged (`console.error("Gemini Image Gen Error:", error)`)
before being rethrown unchanged. -/
def generateTestImage (svc : GenService) (prompt : String)
    (referenceImage : Option String) : GenOutcome :=
  let res : Except JsError String :=
    match buildParts prompt referenceImage with
    | .error e => .error e
    | .ok parts =>
      match svc parts with
      | .error e => .error e
      | .ok response => extractImage response
  match res with
  | .ok img => ⟨.ok img, []⟩
  | .error e => ⟨.error e, ["Gemini Image Gen Error:"]⟩

/-- `generateComparisonPair` (part_000 lines 54-64): `Promise.all` over two
`generateTestImage` calls with the suffixed prompts and the shared optional
reference image. Both fulfilled gives the pair; otherwise the aggregate
rejects with a rejection of one of the two calls (the embedding picks the
first call's error when both reject; `Promise.all` never fulfils with a
partial pair). -/
def generateComparisonPair (svc : GenService) (prompt : String)
    (referenceImage : Option String) : Except JsError (String × String) :=
  match (generateTestImage svc (prompt ++ " --v 1") referenceImage).result,
        (generateTestImage svc (prompt ++ " --v 2") referenceImage).result with
  | .ok resA, .ok resB => .ok (resA, resB)
  | .error e, _ => .error e
  | _, .error e => .error e

/-- Whether any content part of any candidate carries inline image data. -/
def respHasInlineImage (r : GenResponse) : Bool :=
  match r.candidates with
  | none => false
  | some cs =>
    cs.any fun c =>
      match c.content with
      | none => false
      | some ct =>
        match ct.parts with
        | none => false
        | some ps => ps.any fun pt => pt.inlineData.isSome

/-- The JS `WhiteSpace` and `LineTerminator` characters stripped by
`String.prototype.trim`. -/
def isJsWhitespace (c : Char) : Bool :=
  c == ' ' || c == '\t' || c == '\n' || c == '\r' || c == '\x0b' ||
  c == '\x0c' || c == '\u00a0' || c == '\u1680' ||
  ('\u2000' ≤ c && c ≤ '\u200a') || c == '\u2028' || c == '\u2029' ||
  c == '\u202f' || c == '\u205f' || c == '\u3000' || c == '\ufeff'

/-- JS `String.prototype.trim`: strip whitespace from both ends. -/
def jsTrim (s : String) : String :=
  String.mk (((s.data.dropWhile isJsWhitespace).reverse.dropWhile
    isJsWhitespace).reverse)

/-- `UserRole` (part_002 lines 1-6). -/
inductive UserRole
  | GENERAL_USER
  | DESIGNER
  | CREATOR
  | AI_EXPERT
deriving DecidableEq, Repr

/-- `TestPhase` (part_002 lines 8-14). -/
inductive TestPhase
  | ONBOARDING
  | USER_INPUT
  | GENERATION_EVAL
  | AB_TEST
  | COMPLETED
deriving DecidableEq, Repr

/-- `EvaluationMetric` (part_002 lines 16-21); the score is a JS number
moved by a half-step slider, embedded as a rational. -/
structure EvaluationMetric where
  id : String
  label : String
  score : ℚ
  description : String
deriving DecidableEq, Repr

/-- `SingleEvalResult` (part_002 lines 23-29). -/
structure SingleEvalResult where
  prompt : String
  image : String
  metrics : List EvaluationMetric
  feedback : String
  timestamp : ℕ
deriving DecidableEq, Repr

/-- The `'A' | 'B' | 'Equal'` union of `ABTestResult.selectedImage`. -/
inductive Selection
  | A
  | B
  | Equal
deriving DecidableEq, Repr

/-- `ABTestResult` (part_002 lines 31-39). -/
structure ABTestResult where
  prompt : String
  sourceImage : Option String
  imageA : String
  imageB : String
  selectedImage : Selection
  reasoning : String
  timestamp : ℕ
deriving DecidableEq, Repr

/-- `UserSession` (part_002 lines 41-46). -/
structure UserSession where
  role : UserRole
  experienceLevel : ℕ
  singleEvals : List SingleEvalResult
  abTests : List ABTestResult
deriving DecidableEq, Repr

/-- `INITIAL_METRICS` (part_001 lines 9-14). -/
def INITIAL_METRICS : List EvaluationMetric :=
  [ ⟨"adherence", "提示词遵循度", 3, "图像是否准确反映了提示词的内容？"⟩,
    ⟨"quality", "视觉保真度", 3, "清晰度、锐度以及噪点控制。"⟩,
    ⟨"aesthetics", "美学质量", 3, "构图、光影及艺术表现力。"⟩,
    ⟨"coherence", "结构连贯性", 3, "解剖结构、透视及物体逻辑是否合理。"⟩ ]

/-- `SUGGESTED_PROMPTS` (part_001 lines 16-21). -/
def SUGGESTED_PROMPTS : List String :=
  [ "火星上巨大的玻璃泡内建造的未来城市，电影级布光",
    "一只穿着文艺复兴时期皇家服饰的猫的油画，华丽的金框",
    "环保咖啡店的极简主义 Logo 设计，矢量风格，扁平化色彩",
    "东京的赛博朋克街头小吃摊贩，霓虹雨，细节纹理，8k" ]

/-- The `App` component state (part_001 lines 32-48): one field per
`useState` hook. -/
structure AppState where
  phase : TestPhase
  session : UserSession
  prompt : String
  uploadedImage : Option String
  loading : Bool
  generatedImage : Option String
  comparisonImages : Option (String × String)
  metrics : List EvaluationMetric
  textFeedback : String
  error : Option String
deriving DecidableEq, Repr

/-- The initial hook values (part_001 lines 32-48). -/
def initialState : AppState :=
  { phase := TestPhase.ONBOARDING
    session := { role := UserRole.GENERAL_USER, experienceLevel := 5,
                 singleEvals := [], abTests := [] }
    prompt := ""
    uploadedImage := none
    loading := false
    generatedImage := none
    comparisonImages := none
    metrics := INITIAL_METRICS
    textFeedback := ""
    error := none }

/-- `handleStart` (part_001 lines 54-63): store the chosen role in the
session, then branch the workflow on it. -/
def handleStart (role : UserRole) (s : AppState) : AppState :=
  let s1 := { s with session := { s.session with role := role } }
  if role = UserRole.GENERAL_USER then
    { s1 with phase := TestPhase.USER_INPUT }
  else
    { s1 with phase := TestPhase.GENERATION_EVAL }

/-- `handleGenerateSingle` (part_001 lines 76-90): guard on a non-blank
prompt; clear the error and image, await `generateTestImage(prompt)`, then
either store the image or surface the localized error message. -/
def handleGenerateSingle (svc : GenService) (s : AppState) : AppState :=
  if jsTrim s.prompt = "" then s
  else
    match (generateTestImage svc s.prompt none).result with
    | .ok img =>
      { s with loading := false, error := none, generatedImage := some img }
    | .error _ =>
      { s with loading := false, error := some "生成图像失败，请重试。",
               generatedImage := none }

/-- `handleSubmitSingleEval` (part_001 lines 92-115): guard on a generated
image; append the snapshot record to `session.singleEvals`, clear the
per-round state (metrics back to the defaults with score 3), and advance
to `AB_TEST`. -/
def handleSubmitSingleEval (now : ℕ) (s : AppState) : AppState :=
  match s.generatedImage with
  | none => s
  | some img =>
    let result : SingleEvalResult :=
      { prompt := s.prompt, image := img, metrics := s.metrics,
        feedback := s.textFeedback, timestamp := now }
    { s with
        session := { s.session with
                       singleEvals := s.session.singleEvals ++ [result] }
        generatedImage := none
        prompt := ""
        metrics := INITIAL_METRICS.map (fun m => { m with score := 3 })
        textFeedback := ""
        phase := TestPhase.AB_TEST }

/-- `handleGeneralUserSubmit` (part_001 lines 118-133): guard on an
uploaded image and non-blank prompt; move to `AB_TEST` immediately, await
the comparison pair, and on failure surface an error and go back to
`USER_INPUT`. -/
def handleGeneralUserSubmit (svc : GenService) (s : AppState) : AppState :=
  match s.uploadedImage with
  | none => s
  | some img =>
    if jsTrim s.prompt = "" then s
    else
      match generateComparisonPair svc s.prompt (some img) with
      | .ok (a, b) =>
        { s with loading := false, phase := TestPhase.AB_TEST,
                 comparisonImages := some (a, b) }
      | .error _ =>
        { s with loading := false, phase := TestPhase.USER_INPUT,
                 error := some "图像处理失败，请重试。" }

/-- The prompt used by `handleStartProfessionalABTest` (part_001 line
136): the trimmed prompt, or a random suggestion when it is blank. -/
def professionalTestPrompt (rand : Fin 4) (s : AppState) : String :=
  if jsTrim s.prompt = "" then SUGGESTED_PROMPTS.get ⟨rand.val, rand.isLt⟩
  else jsTrim s.prompt

/-- `handleStartProfessionalABTest` (part_001 lines 135-149): pick the
test prompt, clear the error, await the comparison pair with no reference
image, and store the pair or surface an error; the phase is not touched. -/
def handleStartProfessionalABTest (svc : GenService) (rand : Fin 4)
    (s : AppState) : AppState :=
  let testPrompt := professionalTestPrompt rand s
  match generateComparisonPair svc testPrompt none with
  | .ok (a, b) =>
    { s with prompt := testPrompt, error := none, loading := false,
             comparisonImages := some (a, b) }
  | .error _ =>
    { s with prompt := testPrompt, error := some "生成对比图像失败。",
             loading := false }

/-- `handleABSelection` (part_001 lines 151-170): guard on a comparison
pair; append the choice record to `session.abTests` and advance to
`COMPLETED`. -/
def handleABSelection (selection : Selection) (now : ℕ) (s : AppState) :
    AppState :=
  match s.comparisonImages with
  | none => s
  | some (a, b) =>
    let result : ABTestResult :=
      { prompt := s.prompt, sourceImage := s.uploadedImage,
        imageA := a, imageB := b, selectedImage := selection,
        reasoning := s.textFeedback, timestamp := now }
    { s with
        session := { s.session with abTests := s.session.abTests ++ [result] }
        phase := TestPhase.COMPLETED }

/-- The slider update of `renderGenerationEval` (part_001 lines 341-345):
set the score of the metric at one index. -/
def updateScore (l : List EvaluationMetric) (idx : ℕ) (v : ℚ) :
    List EvaluationMetric :=
  match l, idx with
  | [], _ => []
  | m :: ms, 0 => { m with score := v } :: ms
  | m :: ms, Nat.succ n => m :: updateScore ms n v

/-- The actions reachable from the `AB_TEST` screen. -/
inductive ABAction
  | selectA
  | selectB
  | selectEqual
deriving DecidableEq, Repr

/-- The interactions enabled by `renderABTest` (part_001 lines 373-482),
shown only in the `AB_TEST` phase (line 560): with a comparison pair
present and not loading (line 410), clicking image A or B calls
`handleABSelection` unconditionally (lines 428-431), while the Equal
button carries `disabled=\x7b!textFeedback.trim()\x7d` (line 471). -/
def abTestEnabledActions (s : AppState) : List ABAction :=
  if s.phase = TestPhase.AB_TEST ∧ s.comparisonImages.isSome ∧
      s.loading = false then
    [ABAction.selectA, ABAction.selectB] ++
      (if jsTrim s.textFeedback = "" then [] else [ABAction.selectEqual])
  else []

/-- One user-interface event, carrying the data the corresponding handler
reads from outside the component state (timestamps, the random index, the
settled results of awaited calls arriving through the service oracle). -/
inductive Event
  | start (role : UserRole)
  | setPromptText (p : String)
  | uploadImage (img : String)
  | generateSingle
  | submitSingleEval (now : ℕ)
  | generalUserSubmit
  | professionalABTest (rand : Fin 4)
  | abSelect (sel : Selection) (now : ℕ)
  | setFeedback (t : String)
  | setMetricScore (idx : ℕ) (v : ℚ)

/-- The full step function of the component: dispatch of every state
mutation reachable from the rendered handlers. -/
def step (svc : GenService) (e : Event) (s : AppState) : AppState :=
  match e with
  | .start role => handleStart role s
  | .setPromptText p => { s with prompt := p }
  | .uploadImage img => { s with uploadedImage := some img }
  | .generateSingle => handleGenerateSingle svc s
  | .submitSingleEval now => handleSubmitSingleEval now s
  | .generalUserSubmit => handleGeneralUserSubmit svc s
  | .professionalABTest rand => handleStartProfessionalABTest svc rand s
  | .abSelect sel now => handleABSelection sel now s
  | .setFeedback t => { s with textFeedback := t }
  | .setMetricScore idx v => { s with metrics := updateScore s.metrics idx v }

/-! ## Helper lemmas -/

lemma takeWhile_append_cons_of_neg (p : Char → Bool) (m : List Char)
    (c : Char) (t : List Char) (hm : ∀ x ∈ m, p x = true)
    (hc : p c = false) : (m ++ c :: t).takeWhile p = m := by
  induction m with
  | nil => simp [List.takeWhile_cons, hc]
  | cons a as ih =>
    have ha : p a = true := hm a (List.mem_cons_self a as)
    simp only [List.cons_append, List.takeWhile_cons, ha, if_true]
    rw [ih (fun x hx => hm x (List.mem_cons_of_mem a hx))]

lemma parseBase64Data_encode (m p : List Char) (hm : m ≠ [])
    (hmc : ∀ c ∈ m, isMimeTypeChar c = true) (hp : p ≠ [])
    (hpl : ∀ c ∈ p, isLineTerminator c = false) :
    parseBase64Data (dataUrlHead ++ (m ++ (base64Marker ++ p))) =
      some (m, p) := by
  have h1 : (dataUrlHead ++ (m ++ (base64Marker ++ p))).take 5 = dataUrlHead :=
    List.take_left' rfl
  have h2 : (dataUrlHead ++ (m ++ (base64Marker ++ p))).drop 5 =
      m ++ (base64Marker ++ p) := List.drop_left' rfl
  have h3 : (m ++ (base64Marker ++ p)).takeWhile isMimeTypeChar = m := by
    have hb : base64Marker ++ p =
        ';' :: (['b', 'a', 's', 'e', '6', '4', ','] ++ p) := rfl
    rw [hb]
    exact takeWhile_append_cons_of_neg _ _ _ _ hmc (by decide)
  have h4 : (m ++ (base64Marker ++ p)).drop m.length = base64Marker ++ p :=
    List.drop_left m _
  have h5 : (base64Marker ++ p).take 8 = base64Marker := List.take_left' rfl
  have h6 : (base64Marker ++ p).drop 8 = p := List.drop_left' rfl
  have h7 : p.all (fun c => !isLineTerminator c) = true := by
    rw [List.all_eq_true]
    intro c hcp
    rw [hpl c hcp]
    rfl
  simp only [parseBase64Data, h1, h2, h3, h4, h5, h6, h7, if_pos rfl,
    if_neg hm, if_neg hp, if_true]

/-! ## Claim C3 -/

/-- Claim C3 (counterexample): the round trip is not the identity for
every non-empty payload. With media type `image/png` (all characters in
the class) and the non-empty payload `a\nb`, encoding as
`generateTestImage` does and then parsing with `parseBase64` throws
`Invalid input string` instead of returning the payload, because `(.+)`
never matches across a line terminator. -/
theorem parseBase64_roundTrip_cex :
    ("a\nb" : String) ≠ "" ∧
    (∀ c ∈ ("image/png" : String).data, isMimeTypeChar c = true) ∧
    parseBase64 (encodeDataUrl "image/png" "a\nb") ≠
      Except.ok ("image/png", "a\nb") := by
  decide

/-- Claim C3 (amended): for every non-empty media type made of characters
in `[A-Za-z-+\/]` and every non-empty payload containing no line
terminator, encoding into `data:<media-type>;base64,<payload>` as
`generateTestImage` does and decoding with `parseBase64` yields the
original media type and payload unchanged. -/
theorem parseBase64_encode_roundTrip (m p : String) (hm : m.data ≠ [])
    (hmc : ∀ c ∈ m.data, isMimeTypeChar c = true) (hp : p.data ≠ [])
    (hpl : ∀ c ∈ p.data, isLineTerminator c = false) :
    parseBase64 (encodeDataUrl m p) = Except.ok (m, p) := by
  have hdata : (encodeDataUrl m p).data =
      dataUrlHead ++ (m.data ++ (base64Marker ++ p.data)) := by
    simp only [encodeDataUrl, String.data_append, List.append_assoc]
    rfl
  unfold parseBase64
  rw [hdata, parseBase64Data_encode m.data p.data hm hmc hp hpl]

/-- Witness for the amended claim C3 at a concrete media type and
payload. -/
theorem parseBase64_encode_roundTrip_witness :
    parseBase64 (encodeDataUrl "image/png" "iVBORw0KGgo=") =
      Except.ok ("image/png", "iVBORw0KGgo=") :=
  parseBase64_encode_roundTrip "image/png" "iVBORw0KGgo=" (by decide)
    (by decide) (by decide) (by decide)

/-! ## Claim C1 -/

/-- Claim C1: `generateComparisonPair` issues exactly the two requests
obtained by appending the distinct suffixes to the same base prompt with
the same optional reference image, and it is atomic: it fulfils with the
pair exactly when both requests fulfil (both images populated), and any
rejection is the rejection of one of the two requests — it never yields
exactly one image. -/
theorem generateComparisonPair_atomic (svc : GenService) (p : String)
    (ref : Option String) :
    p ++ " --v 1" ≠ p ++ " --v 2" ∧
    (∀ a b, (generateTestImage svc (p ++ " --v 1") ref).result = .ok a →
      (generateTestImage svc (p ++ " --v 2") ref).result = .ok b →
      generateComparisonPair svc p ref = .ok (a, b)) ∧
    (∀ pr, generateComparisonPair svc p ref = .ok pr →
      (generateTestImage svc (p ++ " --v 1") ref).result = .ok pr.1 ∧
      (generateTestImage svc (p ++ " --v 2") ref).result = .ok pr.2) ∧
    (∀ e, generateComparisonPair svc p ref = .error e →
      (generateTestImage svc (p ++ " --v 1") ref).result = .error e ∨
      (generateTestImage svc (p ++ " --v 2") ref).result = .error e) := by
  refine ⟨?_, ?_, ?_, ?_⟩
  · intro h
    have h2 : (p ++ " --v 1").data = (p ++ " --v 2").data := by rw [h]
    rw [String.data_append, String.data_append] at h2
    have h3 := List.append_cancel_left h2
    exact absurd h3 (by decide)
  · intro a b hA hB
    simp only [generateComparisonPair, hA, hB]
  · intro pr hpr
    unfold generateComparisonPair at hpr
    cases hA : (generateTestImage svc (p ++ " --v 1") ref).result with
    | error e =>
      rw [hA] at hpr
      cases hB : (generateTestImage svc (p ++ " --v 2") ref).result with
      | error f => rw [hB] at hpr; exact absurd hpr (by simp)
      | ok b => rw [hB] at hpr; exact absurd hpr (by simp)
    | ok a =>
      rw [hA] at hpr
      cases hB : (generateTestImage svc (p ++ " --v 2") ref).result with
      | error f => rw [hB] at hpr; exact absurd hpr (by simp)
      | ok b =>
        rw [hB] at hpr
        simp only [Except.ok.injEq] at hpr
        rw [← hpr]
        exact ⟨rfl, rfl⟩
  · intro e he
    unfold generateComparisonPair at he
    cases hA : (generateTestImage svc (p ++ " --v 1") ref).result with
    | error f =>
      rw [hA] at he
      cases hB : (generateTestImage svc (p ++ " --v 2") ref).result with
      | error g =>
        rw [hB] at he
        simp only [Except.error.injEq] at he
        exact Or.inl (by rw [he])
      | ok b =>
        rw [hB] at he
        simp only [Except.error.injEq] at he
        exact Or.inl (by rw [he])
    | ok a =>
      rw [hA] at he
      cases hB : (generateTestImage svc (p ++ " --v 2") ref).result with
      | error g =>
        rw [hB] at he
        simp only [Except.error.injEq] at he
        exact Or.inr (by rw [he])
      | ok b => rw [hB] at he; exact absurd he (by simp)

/-- A service response carrying one inline image. -/
def respInline : GenResponse :=
  { candidates := some
      [{ content := some
          { parts := some [{ inlineData := some ⟨"image/png", "AAA"⟩ }] } }] }

/-- A service that always fulfils with `respInline`. -/
def svcOk : GenService := fun _ => .ok respInline

/-- Witness for claim C1: with a service that fulfils both requests, the
pair fulfils with both images. -/
theorem generateComparisonPair_atomic_witness :
    generateComparisonPair svcOk "p" none =
      .ok ("data:image/png;base64,AAA", "data:image/png;base64,AAA") :=
  (generateComparisonPair_atomic svcOk "p" none).2.1
    "data:image/png;base64,AAA" "data:image/png;base64,AAA" rfl rfl

/-! ## Claim C8 -/

lemma findInlineData_none_of_no_inline (ps : List RespPart)
    (h : ps.any (fun pt => pt.inlineData.isSome) = false) :
    findInlineData ps = none := by
  induction ps with
  | nil => rfl
  | cons pt ps ih =>
    simp only [List.any_cons, Bool.or_eq_false_iff] at h
    unfold findInlineData
    cases hpt : pt.inlineData with
    | some d =>
      rw [hpt] at h
      simp at h
    | none => exact ih h.2

/-- A service whose response fulfils with a present but empty candidates
array. -/
def svcEmptyCandidates : GenService := fun _ => .ok { candidates := some [] }

/-- Claim C8 (counterexample): a fulfilled response whose candidates array
is present but empty contains no inline image data among its content
parts, yet `generateTestImage` fails with the `TypeError` raised by
`response.candidates[0].content` (an empty array is truthy), not with the
distinct `No image data found in response` error. -/
theorem generateTestImage_noImage_cex :
    svcEmptyCandidates [ReqPart.text "p"] = .ok { candidates := some [] } ∧
    respHasInlineImage { candidates := some [] } = false ∧
    (generateTestImage svcEmptyCandidates "p" none).result =
      .error JsError.typeError ∧
    JsError.typeError ≠ JsError.err "No image data found in response" := by
  decide

/-- Claim C8 (amended): when the service fulfils with a response that
contains no inline image data among its content parts, `generateTestImage`
fails with the distinct error `No image data found in response` — except
that a present-but-empty candidates array makes it fail with a `TypeError`
instead; transport and service rejections are propagated unchanged; and in
every failure case the diagnostic log entry is emitted before the error
propagates. -/
theorem generateTestImage_error_taxonomy (svc : GenService) (prompt : String)
    (ref : Option String) (parts : List ReqPart) (resp : GenResponse) :
    (buildParts prompt ref = .ok parts → svc parts = .ok resp →
      respHasInlineImage resp = false → resp.candidates ≠ some [] →
      generateTestImage svc prompt ref =
        ⟨.error (JsError.err "No image data found in response"),
         ["Gemini Image Gen Error:"]⟩) ∧
    (buildParts prompt ref = .ok parts → svc parts = .ok resp →
      resp.candidates = some [] →
      generateTestImage svc prompt ref =
        ⟨.error JsError.typeError, ["Gemini Image Gen Error:"]⟩) ∧
    (∀ e, buildParts prompt ref = .ok parts → svc parts = .error e →
      generateTestImage svc prompt ref =
        ⟨.error e, ["Gemini Image Gen Error:"]⟩) := by
  refine ⟨?_, ?_, ?_⟩
  · intro hb hs hno hne
    have hext : extractImage resp =
        .error (JsError.err "No image data found in response") := by
      unfold extractImage
      cases hc : resp.candidates with
      | none => rfl
      | some cs =>
        cases cs with
        | nil => exact absurd hc hne
        | cons c rest =>
          unfold respHasInlineImage at hno
          rw [hc] at hno
          simp only [List.any_cons, Bool.or_eq_false_iff] at hno
          obtain ⟨hcfalse, _⟩ := hno
          obtain ⟨oc⟩ := c
          cases oc with
          | none => rfl
          | some ct =>
            obtain ⟨ops⟩ := ct
            cases ops with
            | none => rfl
            | some ps =>
              have hfd : findInlineData ps = none :=
                findInlineData_none_of_no_inline ps hcfalse
              simp only [hfd]
    simp only [generateTestImage, hb, hs, hext]
  · intro hb hs hc
    have hext : extractImage resp = .error JsError.typeError := by
      unfold extractImage
      rw [hc]
    simp only [generateTestImage, hb, hs, hext]
  · intro e hb hs
    simp only [generateTestImage, hb, hs]

/-- Witness for the amended claim C8: a fulfilled response with one
candidate whose parts carry no inline data yields the distinct error and
the log entry. -/
theorem generateTestImage_error_taxonomy_witness :
    generateTestImage (fun _ => .ok { candidates := some [{ content := some { parts := some [{ inlineData := none }] } }] }) "p" none =
      ⟨.error (JsError.err "No image data found in response"),
       ["Gemini Image Gen Error:"]⟩ :=
  (generateTestImage_error_taxonomy
    (fun _ => .ok { candidates := some [{ content := some { parts := some [{ inlineData := none }] } }] })
    "p" none [ReqPart.text "p"]
    { candidates := some [{ content := some { parts := some [{ inlineData := none }] } }] }).1
    rfl rfl (by decide) (by decide)

/-! ## Claim C4 -/

/-- Claim C4: selecting a role at onboarding stores the role in the
session and enters exactly one of USER_INPUT and GENERATION_EVAL,
determined solely by the role: USER_INPUT exactly for the general-user
role, GENERATION_EVAL for every other role. -/
theorem handleStart_role_routing (role : UserRole) (s : AppState) :
    (handleStart role s).session.role = role ∧
    ((handleStart role s).phase = TestPhase.USER_INPUT ∨
      (handleStart role s).phase = TestPhase.GENERATION_EVAL) ∧
    ((handleStart role s).phase = TestPhase.USER_INPUT ↔
      role = UserRole.GENERAL_USER) := by
  by_cases hr : role = UserRole.GENERAL_USER
  · subst hr
    simp [handleStart]
  · simp [handleStart, hr]

/-- Witness for claim C4 at the designer role: it routes to
GENERATION_EVAL, not USER_INPUT. -/
theorem handleStart_role_routing_witness :
    (handleStart UserRole.DESIGNER initialState).session.role =
      UserRole.DESIGNER ∧
    ¬ (handleStart UserRole.DESIGNER initialState).phase =
      TestPhase.USER_INPUT ∧
    (handleStart UserRole.DESIGNER initialState).phase =
      TestPhase.GENERATION_EVAL := by
  have h := handleStart_role_routing UserRole.DESIGNER initialState
  refine ⟨h.1, fun hu => ?_, by decide⟩
  exact absurd (h.2.2.mp hu) (by decide)

/-! ## Claim C2 -/

/-- Claim C2: with a generated image present, submitting the single
evaluation appends exactly one `SingleEvalResult` whose metrics field is
the metric list shown at submission time (the embedding is pure, so the
appended snapshot is unaffected by the simultaneous reset), resets the
metric catalog to its four defaults with score 3, and lands in `AB_TEST`
with the record already appended. -/
theorem handleSubmitSingleEval_appends_snapshot (now : ℕ) (s : AppState)
    (img : String) (h : s.generatedImage = some img) :
    (handleSubmitSingleEval now s).session.singleEvals =
      s.session.singleEvals ++
        [{ prompt := s.prompt, image := img, metrics := s.metrics,
           feedback := s.textFeedback, timestamp := now }] ∧
    (handleSubmitSingleEval now s).metrics = INITIAL_METRICS ∧
    INITIAL_METRICS.length = 4 ∧
    (∀ m ∈ INITIAL_METRICS, m.score = 3) ∧
    (handleSubmitSingleEval now s).phase = TestPhase.AB_TEST ∧
    (handleSubmitSingleEval now s).session.abTests = s.session.abTests := by
  simp only [handleSubmitSingleEval, h]
  exact ⟨trivial, by decide, by decide, by decide, trivial, trivial⟩

/-- Witness for claim C2 at a concrete state holding a generated image. -/
theorem handleSubmitSingleEval_appends_snapshot_witness :
    (handleSubmitSingleEval 7
        { initialState with generatedImage := some "img" }).session.singleEvals =
      [{ prompt := "", image := "img", metrics := INITIAL_METRICS,
         feedback := "", timestamp := 7 }] ∧
    (handleSubmitSingleEval 7
        { initialState with generatedImage := some "img" }).phase =
      TestPhase.AB_TEST := by
  have h := handleSubmitSingleEval_appends_snapshot 7
    { initialState with generatedImage := some "img" } "img" rfl
  exact ⟨by simpa using h.1, h.2.2.2.2.1⟩

/-! ## Claim C5 -/

/-- Claim C5: with a comparison pair present, submitting any of the three
choices appends exactly one `ABTestResult` whose selected image is the
chosen value, whose reasoning is the feedback text at submission time and
whose images are the displayed pair, and lands in `COMPLETED` with the
record already appended. -/
theorem handleABSelection_appends_choice (sel : Selection) (now : ℕ)
    (s : AppState) (a b : String) (h : s.comparisonImages = some (a, b)) :
    (handleABSelection sel now s).session.abTests =
      s.session.abTests ++
        [{ prompt := s.prompt, sourceImage := s.uploadedImage, imageA := a,
           imageB := b, selectedImage := sel, reasoning := s.textFeedback,
           timestamp := now }] ∧
    (handleABSelection sel now s).phase = TestPhase.COMPLETED ∧
    (handleABSelection sel now s).session.singleEvals =
      s.session.singleEvals := by
  simp only [handleABSelection, h]
  refine ⟨?_, ?_, ?_⟩ <;> trivial

/-- The state used by the witnesses that need a comparison pair on
screen. -/
def stateWithPair : AppState :=
  { initialState with phase := TestPhase.AB_TEST,
                      comparisonImages := some ("imgA", "imgB"),
                      textFeedback := "because" }

/-- Witness for claim C5 at a concrete state holding a comparison pair. -/
theorem handleABSelection_appends_choice_witness :
    (handleABSelection Selection.Equal 9 stateWithPair).session.abTests =
      [{ prompt := "", sourceImage := none, imageA := "imgA",
         imageB := "imgB", selectedImage := Selection.Equal,
         reasoning := "because", timestamp := 9 }] ∧
    (handleABSelection Selection.Equal 9 stateWithPair).phase =
      TestPhase.COMPLETED := by
  have h := handleABSelection_appends_choice Selection.Equal 9 stateWithPair
    "imgA" "imgB" rfl
  exact ⟨by simpa using h.1, h.2.1⟩

/-! ## Claim C6 -/

/-- The AB_TEST state with whitespace-only feedback used by the claim C6
counterexample. -/
def stateWsFeedback : AppState :=
  { initialState with phase := TestPhase.AB_TEST,
                      comparisonImages := some ("imgA", "imgB"),
                      textFeedback := " " }

/-- Claim C6 (counterexample): with whitespace-only reasoning text the
claim fails twice over: the text is non-empty yet the Equal action is
still disabled (the claim promises all three choices for non-empty text),
and selecting image A records the whitespace reasoning, not an empty
one. -/
theorem abTest_equal_gating_cex :
    stateWsFeedback.textFeedback ≠ "" ∧
    ABAction.selectEqual ∉ abTestEnabledActions stateWsFeedback ∧
    (handleABSelection Selection.A 0 stateWsFeedback).session.abTests =
      [{ prompt := "", sourceImage := none, imageA := "imgA",
         imageB := "imgB", selectedImage := Selection.A, reasoning := " ",
         timestamp := 0 }] ∧
    (" " : String) ≠ "" := by
  decide

/-- Claim C6 (amended): in AB_TEST with a comparison pair present, when
the reasoning text is blank (empty or whitespace-only) the Equal action is
disabled while selecting image A or B is still permitted and records an
`ABTestResult` whose reasoning is the entered text itself (so empty
exactly when the text is empty); when the trimmed reasoning text is
non-empty, all three choices are available. -/
theorem abTest_equal_gating (s : AppState) (a b : String)
    (hphase : s.phase = TestPhase.AB_TEST)
    (hc : s.comparisonImages = some (a, b)) (hl : s.loading = false) :
    (jsTrim s.textFeedback = "" →
      ABAction.selectEqual ∉ abTestEnabledActions s ∧
      ABAction.selectA ∈ abTestEnabledActions s ∧
      ABAction.selectB ∈ abTestEnabledActions s ∧
      ∀ now, (handleABSelection Selection.A now s).session.abTests =
        s.session.abTests ++
          [{ prompt := s.prompt, sourceImage := s.uploadedImage,
             imageA := a, imageB := b, selectedImage := Selection.A,
             reasoning := s.textFeedback, timestamp := now }]) ∧
    (jsTrim s.textFeedback ≠ "" →
      abTestEnabledActions s =
        [ABAction.selectA, ABAction.selectB, ABAction.selectEqual]) := by
  constructor
  · intro hblank
    have henabled : abTestEnabledActions s =
        [ABAction.selectA, ABAction.selectB] := by
      simp [abTestEnabledActions, hphase, hc, hl, hblank]
    refine ⟨?_, ?_, ?_, ?_⟩
    · rw [henabled]; decide
    · rw [henabled]; decide
    · rw [henabled]; decide
    · intro now
      exact (handleABSelection_appends_choice Selection.A now s a b hc).1
  · intro hnonblank
    simp [abTestEnabledActions, hphase, hc, hl, hnonblank]

/-- Witness for the amended claim C6 at two concrete states: blank
feedback disables only Equal; non-blank feedback enables all three. -/
theorem abTest_equal_gating_witness :
    ABAction.selectEqual ∉ abTestEnabledActions stateWsFeedback ∧
    ABAction.selectA ∈ abTestEnabledActions stateWsFeedback ∧
    abTestEnabledActions stateWithPair =
      [ABAction.selectA, ABAction.selectB, ABAction.selectEqual] := by
  have h1 := abTest_equal_gating stateWsFeedback "imgA" "imgB" rfl rfl rfl
  have h2 := abTest_equal_gating stateWithPair "imgA" "imgB" rfl rfl rfl
  have hb1 := h1.1 (by decide)
  exact ⟨hb1.1, hb1.2.1, h2.2 (by decide)⟩

/-! ## Claim C7 -/

/-- Claim C7: from USER_INPUT with an uploaded image and non-blank intent
text, a fulfilled paired generation lands in AB_TEST with both comparison
images populated; a rejected paired generation reverts the phase to
USER_INPUT with an error surfaced; and a rejected paired generation in the
professional flow leaves the phase at AB_TEST with an error surfaced. -/
theorem pairedGeneration_phase_transitions (svc : GenService) (s : AppState)
    (img : String) (rand : Fin 4) :
    (∀ a b, s.phase = TestPhase.USER_INPUT → s.uploadedImage = some img →
      jsTrim s.prompt ≠ "" →
      generateComparisonPair svc s.prompt (some img) = .ok (a, b) →
      (handleGeneralUserSubmit svc s).phase = TestPhase.AB_TEST ∧
      (handleGeneralUserSubmit svc s).comparisonImages = some (a, b)) ∧
    (∀ e, s.phase = TestPhase.USER_INPUT → s.uploadedImage = some img →
      jsTrim s.prompt ≠ "" →
      generateComparisonPair svc s.prompt (some img) = .error e →
      (handleGeneralUserSubmit svc s).phase = TestPhase.USER_INPUT ∧
      (handleGeneralUserSubmit svc s).error = some "图像处理失败，请重试。") ∧
    (∀ e, s.phase = TestPhase.AB_TEST →
      generateComparisonPair svc (professionalTestPrompt rand s) none =
        .error e →
      (handleStartProfessionalABTest svc rand s).phase = TestPhase.AB_TEST ∧
      (handleStartProfessionalABTest svc rand s).error =
        some "生成对比图像失败。") := by
  refine ⟨?_, ?_, ?_⟩
  · intro a b _ hup htrim hpair
    simp [handleGeneralUserSubmit, hup, htrim, hpair]
  · intro e _ hup htrim hpair
    simp [handleGeneralUserSubmit, hup, htrim, hpair]
  · intro e hphase hpair
    simp only [handleStartProfessionalABTest, hpair]
    exact ⟨hphase, trivial⟩

/-- A service that always rejects. -/
def svcFail : GenService := fun _ => .error (JsError.err "boom")

/-- The USER_INPUT state with an uploaded image and non-blank intent text
used by the claim C7 witness. -/
def stateUpload : AppState :=
  { initialState with phase := TestPhase.USER_INPUT,
                      uploadedImage := some "data:image/png;base64,AAA",
                      prompt := "hi" }

/-- Witness for claim C7: a fulfilled pair lands in AB_TEST with both
images; a rejected pair reverts to USER_INPUT; a rejected professional
pair stays in AB_TEST. -/
theorem pairedGeneration_phase_transitions_witness :
    (handleGeneralUserSubmit svcOk stateUpload).phase = TestPhase.AB_TEST ∧
    (handleGeneralUserSubmit svcOk stateUpload).comparisonImages =
      some ("data:image/png;base64,AAA", "data:image/png;base64,AAA") ∧
    (handleGeneralUserSubmit svcFail stateUpload).phase =
      TestPhase.USER_INPUT ∧
    (handleStartProfessionalABTest svcFail ⟨0, by decide⟩
        { initialState with phase := TestPhase.AB_TEST }).phase =
      TestPhase.AB_TEST := by
  have h1 := (pairedGeneration_phase_transitions svcOk stateUpload
    "data:image/png;base64,AAA" ⟨0, by decide⟩).1
    "data:image/png;base64,AAA" "data:image/png;base64,AAA"
    rfl rfl (by decide) (by decide)
  have h2 := (pairedGeneration_phase_transitions svcFail stateUpload
    "data:image/png;base64,AAA" ⟨0, by decide⟩).2.1
    (JsError.err "boom") rfl rfl (by decide) (by decide)
  have h3 := (pairedGeneration_phase_transitions svcFail
    { initialState with phase := TestPhase.AB_TEST } "x" ⟨0, by decide⟩).2.2
    (JsError.err "boom") rfl (by decide)
  exact ⟨h1.1, h1.2, h2.1, h3.1⟩

/-! ## Claim C9 -/

lemma handleStart_session_history (role : UserRole) (s : AppState) :
    (handleStart role s).session.singleEvals = s.session.singleEvals ∧
    (handleStart role s).session.abTests = s.session.abTests := by
  by_cases hr : role = UserRole.GENERAL_USER <;> simp [handleStart, hr]

lemma handleGenerateSingle_session (svc : GenService) (s : AppState) :
    (handleGenerateSingle svc s).session = s.session := by
  unfold handleGenerateSingle
  split
  · rfl
  · split <;> rfl

lemma handleGeneralUserSubmit_session (svc : GenService) (s : AppState) :
    (handleGeneralUserSubmit svc s).session = s.session := by
  unfold handleGeneralUserSubmit
  split
  · rfl
  · split
    · rfl
    · split <;> rfl

lemma handleStartProfessionalABTest_session (svc : GenService) (rand : Fin 4)
    (s : AppState) :
    (handleStartProfessionalABTest svc rand s).session = s.session := by
  simp only [handleStartProfessionalABTest]
  split <;> rfl

lemma handleSubmitSingleEval_history (now : ℕ) (s : AppState) :
    ∃ d, d.length ≤ 1 ∧
      (handleSubmitSingleEval now s).session.singleEvals =
        s.session.singleEvals ++ d ∧
      (handleSubmitSingleEval now s).session.abTests = s.session.abTests := by
  cases hg : s.generatedImage with
  | none =>
    refine ⟨[], by simp, ?_, ?_⟩ <;> simp [handleSubmitSingleEval, hg]
  | some img =>
    exact ⟨[{ prompt := s.prompt, image := img, metrics := s.metrics,
              feedback := s.textFeedback, timestamp := now }],
      by simp, by simp [handleSubmitSingleEval, hg],
      by simp [handleSubmitSingleEval, hg]⟩

lemma handleABSelection_history (sel : Selection) (now : ℕ) (s : AppState) :
    ∃ d, d.length ≤ 1 ∧
      (handleABSelection sel now s).session.abTests =
        s.session.abTests ++ d ∧
      (handleABSelection sel now s).session.singleEvals =
        s.session.singleEvals := by
  cases hg : s.comparisonImages with
  | none =>
    refine ⟨[], by simp, ?_, ?_⟩ <;> simp [handleABSelection, hg]
  | some pr =>
    exact ⟨[{ prompt := s.prompt, sourceImage := s.uploadedImage,
              imageA := pr.1, imageB := pr.2, selectedImage := sel,
              reasoning := s.textFeedback, timestamp := now }],
      by simp, by simp [handleABSelection, hg],
      by simp [handleABSelection, hg]⟩

/-- Claim C9: over every event the step function can take, the two record
sequences are append-only — each step appends zero or one record to each
and never modifies or removes what is already there — and an append to
`singleEvals` happens only on a single-evaluation submission, an append to
`abTests` only on a pairwise selection. -/
theorem session_history_append_only (svc : GenService) (e : Event)
    (s : AppState) :
    ∃ d1 d2,
      (step svc e s).session.singleEvals = s.session.singleEvals ++ d1 ∧
      (step svc e s).session.abTests = s.session.abTests ++ d2 ∧
      d1.length ≤ 1 ∧ d2.length ≤ 1 ∧
      (d1 ≠ [] → ∃ now, e = Event.submitSingleEval now) ∧
      (d2 ≠ [] → ∃ sel now, e = Event.abSelect sel now) := by
  cases e with
  | start role =>
    obtain ⟨h1, h2⟩ := handleStart_session_history role s
    exact ⟨[], [], by simpa using h1, by simpa using h2, by simp, by simp,
      by simp, by simp⟩
  | setPromptText p =>
    exact ⟨[], [], by simp [step], by simp [step], by simp, by simp,
      by simp, by simp⟩
  | uploadImage img =>
    exact ⟨[], [], by simp [step], by simp [step], by simp, by simp,
      by simp, by simp⟩
  | generateSingle =>
    have h := handleGenerateSingle_session svc s
    exact ⟨[], [], by simp [step, h], by simp [step, h], by simp, by simp,
      by simp, by simp⟩
  | submitSingleEval now =>
    obtain ⟨d, hd, h1, h2⟩ := handleSubmitSingleEval_history now s
    exact ⟨d, [], h1, by simpa using h2, hd, by simp,
      fun _ => ⟨now, rfl⟩, by simp⟩
  | generalUserSubmit =>
    have h := handleGeneralUserSubmit_session svc s
    exact ⟨[], [], by simp [step, h], by simp [step, h], by simp, by simp,
      by simp, by simp⟩
  | professionalABTest rand =>
    have h := handleStartProfessionalABTest_session svc rand s
    exact ⟨[], [], by simp [step, h], by simp [step, h], by simp, by simp,
      by simp, by simp⟩
  | abSelect sel now =>
    obtain ⟨d, hd, h2, h1⟩ := handleABSelection_history sel now s
    exact ⟨[], d, by simpa using h1, h2, by simp, hd,
      by simp, fun _ => ⟨sel, now, rfl⟩⟩
  | setFeedback t =>
    exact ⟨[], [], by simp [step], by simp [step], by simp, by simp,
      by simp, by simp⟩
  | setMetricScore idx v =>
    exact ⟨[], [], by simp [step], by simp [step], by simp, by simp,
      by simp, by simp⟩

/-- Witness for claim C9: the statement instantiated at a pairwise
selection from a state with a comparison pair. -/
theorem session_history_append_only_witness :
    ∃ d1 d2,
      (step svcFail (Event.abSelect Selection.A 0)
          stateWithPair).session.singleEvals =
        stateWithPair.session.singleEvals ++ d1 ∧
      (step svcFail (Event.abSelect Selection.A 0)
          stateWithPair).session.abTests =
        stateWithPair.session.abTests ++ d2 ∧
      d1.length ≤ 1 ∧ d2.length ≤ 1 ∧
      (d1 ≠ [] → ∃ now, Event.abSelect Selection.A 0 =
        Event.submitSingleEval now) ∧
      (d2 ≠ [] → ∃ sel now, Event.abSelect Selection.A 0 =
        Event.abSelect sel now) :=
  session_history_append_only svcFail (Event.abSelect Selection.A 0)
    stateWithPair

/-! ## Claim C10 -/

/-- Claim C10: each submission handler returns the state unchanged when
its required input is absent — no generated image for the single
evaluation, no comparison pair for the pairwise selection, no uploaded
image or blank intent text for the general-user submit, and a blank
prompt for the single generation. -/
theorem handlers_noop_guards (svc : GenService) (now : ℕ) (sel : Selection)
    (s : AppState) :
    (s.generatedImage = none → handleSubmitSingleEval now s = s) ∧
    (s.comparisonImages = none → handleABSelection sel now s = s) ∧
    (s.uploadedImage = none ∨ jsTrim s.prompt = "" →
      handleGeneralUserSubmit svc s = s) ∧
    (jsTrim s.prompt = "" → handleGenerateSingle svc s = s) := by
  refine ⟨?_, ?_, ?_, ?_⟩
  · intro h
    simp [handleSubmitSingleEval, h]
  · intro h
    simp [handleABSelection, h]
  · rintro (h | h)
    · simp [handleGeneralUserSubmit, h]
    · cases hu : s.uploadedImage with
      | none => simp [handleGeneralUserSubmit, hu]
      | some img => simp [handleGeneralUserSubmit, hu, h]
  · intro h
    simp [handleGenerateSingle, h]

/-- Witness for claim C10 at the initial state, where all four guards
fail. -/
theorem handlers_noop_guards_witness :
    handleSubmitSingleEval 0 initialState = initialState ∧
    handleABSelection Selection.A 0 initialState = initialState ∧
    handleGeneralUserSubmit svcFail initialState = initialState ∧
    handleGenerateSingle svcFail initialState = initialState :=
  have h := handlers_noop_guards svcFail 0 Selection.A initialState
  ⟨h.1 rfl, h.2.1 rfl, h.2.2.1 (Or.inl rfl), h.2.2.2 rfl⟩
